import Mathlib

/-!
Verification of the `CodeAnalyzer` type-inference pass of sherlock.py
(`sherlock/codelib/analyzer/__init__.py`).

The analyzer walks a parsed Python AST subset and assigns one of four
static types to every expression, resolving user-defined function return
types lazily with a per-signature cache.  The embedding below mirrors the
source method by method:

* `get_type`                ↦ `CodeAnalyzer.get_type`
* `get_type_list`           ↦ the list comprehension `[self.get_type(arg) for arg in node.args]`
* `get_function_return_type`↦ `CodeAnalyzer.get_function_return_type`
* `analysis_function`       ↦ `CodeAnalyzer.analysis_function`
* `funcBody`                ↦ the `for node in function_node.body` loop inside it
* `analysis_assign_node`    ↦ `CodeAnalyzer.analysis_assign_node`
* `analysisBody`            ↦ the `for node in self.module_node.body` loop of `CodeAnalyzer.analysis`

Python exceptions are modelled as an `Err` sum returned through `Except`;
the implicit `return None` fall-through of `get_type` is modelled as
`.ok none`.  The mutual recursion through function bodies is not
structurally terminating, so every function consumes explicit fuel and
running out of fuel is a distinct error (Python would raise
`RecursionError` there).

Collaborator modules that are declared but whose code is not part of the
analyzer file are modelled from the spec where marked below: the
`Variables` / `Functions` symbol tables (§4.2), `Function.is_args_type_match`
(§4.4 step 2), and the built-in function oracle (§6), the latter carried as
parameters of the analysis context.
-/

namespace Sherlock

/-- The closed type lattice `Type` of `sherlock/codelib/analyzer/variable.py`:
NUMBER, STRING, LIST, VOID (spec §3). -/
inductive Ty
  | NUMBER
  | STRING
  | LIST
  | VOID
deriving DecidableEq

/-- `Type.is_number`: holds only for NUMBER (spec §4.1). -/
def Ty.is_number : Ty → Bool
  | .NUMBER => true
  | _ => false

/-- Binary operator node (`node.op` of an `ast.BinOp`).  The analyzer only
distinguishes `ast.Add` from everything else and uses the operator class
name in the non-add error message. -/
inductive Op
  | Add
  | Sub
  | Mult
  | Div
  | Mod
  | Pow
deriving DecidableEq

/-- `node.op.__class__.__name__` for a binary operator node. -/
def Op.clsName : Op → String
  | .Add => "Add"
  | .Sub => "Sub"
  | .Mult => "Mult"
  | .Div => "Div"
  | .Mod => "Mod"
  | .Pow => "Pow"

/-- Unary operator node kind (`node.op` of an `ast.UnaryOp`).  `get_type`
never inspects it (its unary branch crashes first, see `get_type`). -/
inductive UOp
  | UAdd
  | USub
  | Invert
deriving DecidableEq

/-- The expression node kinds `get_type` dispatches on, plus `other` for
any `ast` expression node matching none of its `isinstance` tests
(`ast.Compare`, `ast.Dict`, ...), on which the method falls through and
implicitly returns `None`.  Literal payloads are carried for fidelity but
never read by the analyzer; list elements and non-name call targets /
assignment targets do not influence any analyzed behaviour and are left
out. -/
inductive Expr
  | binop (left : Expr) (op : Op) (right : Expr)
  | unaryop (op : UOp) (operand : Expr)
  | num (n : Int)
  | str (s : String)
  | list
  | call (funcName : String) (args : List Expr)
  | name (id : String)
  | other

/-- The statement node kinds the analyzer dispatches on (`ast.Assign`,
`ast.Expr`, `ast.Return`, `ast.FunctionDef`, `ast.ImportFrom`), plus
`other` for anything else, which both drivers skip.  Assignment targets
are name targets, as the source assumes (`target.id`). -/
inductive Stmt
  | assign (targets : List String) (value : Expr)
  | exprStmt (value : Expr)
  | ret (value : Option Expr)
  | functionDef (name : String) (body : List Stmt)
  | importFrom
  | other

/-- The failures the analysis can surface.  `compileError`,
`syntaxNotSupportError` and `paramTypeMismatchError` are the exception
classes of `sherlock/errors.py` with their constructor arguments;
`nameError`, `attributeError` and `indexError` are the Python exceptions
the analyzer code itself can raise (`NameError` from the undefined
`operand` identifier in the unary branch, `AttributeError` from accessing
`.is_number` on `None`, `IndexError` from `node.targets[0]` on an empty
target list); `unresolvedName` is the absent-variable lookup failure
(modelled from the spec, see `lookupVariable`); `outOfFuel` stands for
exhausting the recursion bound. -/
inductive Err
  | compileError (msg : String)
  | syntaxNotSupportError (msg : String)
  | paramTypeMismatchError (msg : String) (funcName : String)
  | nameError (id : String)
  | attributeError (attr : String)
  | indexError
  | unresolvedName (id : String)
  | outOfFuel
deriving DecidableEq

/-- A `Variable` entry of a Variable Table: name and inferred type.  The
stored type is optional because `analysis_assign_node` stores whatever
`get_type` returned, which can be Python `None`. -/
structure Variable where
  name : String
  var_type : Option Ty
deriving DecidableEq

/-- A `Function` entry of the Function Table: name, ordered argument
types, cached return type.  The generated-body handle the source also
stores is an opaque reference that no analyzed behaviour reads, so it is
omitted. -/
structure Function where
  name : String
  args_type : List (Option Ty)
  return_type : Ty
deriving DecidableEq

/-- Modelled from the spec: `Functions` lookup (`self.functions[name]`,
`sherlock/codelib/analyzer/function.py` is not part of the analyzer file).
Per §3, the Function Table is an ordered mapping keyed by name and lookup
by name returns the first match found, absence signalling "not yet
analyzed". -/
def lookupFunction : List Function → String → Option Function
  | [], _ => none
  | f :: fs, nm => if f.name = nm then some f else lookupFunction fs nm

/-- Modelled from the spec: `Functions.append` inserts the new entry into
the ordered table (§4.2). -/
def appendFunction (fs : List Function) (f : Function) : List Function :=
  fs ++ [f]

/-- Modelled from the spec: `Function.is_args_type_match` compares the
cached entry's argument types to the call's inferred argument types
element-wise, exact match (§4.4 step 2). -/
def Function.is_args_type_match (f : Function) (args_type : List (Option Ty)) : Bool :=
  f.args_type = args_type

/-- Modelled from the spec: `Variables` lookup (`self.variables[name]`,
`sherlock/codelib/analyzer/variable.py` is not part of the analyzer file).
Names are unique in a Variable Table (§3), lookup returns the entry for
the name, absence is handled by the caller. -/
def lookupVariable : List Variable → String → Option Variable
  | [], _ => none
  | v :: vs, nm => if v.name = nm then some v else lookupVariable vs nm

/-- Modelled from the spec: `Variables.append` inserts or shadows by name
(§4.2), keeping names unique at any instant (§3). -/
def appendVariable (vs : List Variable) (v : Variable) : List Variable :=
  if vs.any (fun w => w.name = v.name) then
    vs.map (fun w => if w.name = v.name then v else w)
  else
    vs ++ [v]

/-- The read-only context of one `get_type` / resolver activation: the
module's top-level statement list (`self.module_node.body`, never mutated
after parse), the module Variable Table `self.variables` as it stands (the
inference engine only reads it), and the built-in function oracle, which
is modelled from the spec as the interface pair
`is_builtin(name) / builtin_return_type(name)` (§6) since
`sherlock/codelib/system_function.py` is not part of the analyzer file. -/
structure Ctx where
  module_body : List Stmt
  var_table : List Variable
  is_system_function : String → Bool
  system_return_type : String → Ty

/-- The scan `for node in self.module_node.body: if isinstance(node,
ast.FunctionDef) and node.name == function_name` of
`get_function_return_type`: first matching function definition, if any. -/
def scanFunctionDef : List Stmt → String → Option (List Stmt)
  | [], _ => none
  | .functionDef nm body :: rest, target =>
      if nm = target then some body else scanFunctionDef rest target
  | _ :: rest, target => scanFunctionDef rest target

/-- Accessing `.is_number` on the result of a recursive `get_type` call:
on Python `None` this raises `AttributeError`. -/
def tyIsNumber : Option Ty → Except Err Bool
  | none => .error (.attributeError "is_number")
  | some t => .ok t.is_number

mutual

/-- `CodeAnalyzer.get_type` (lines 126-168).  Takes the optional node
(`get_type(node.value)` is reached with `None` for a bare `return`),
returns the inferred type — `none` for the implicit `return None`
fall-through — together with the updated function table
(`self.functions`, the only instance state the call can mutate). -/
def get_type (ctx : Ctx) : Nat → List Function → Option Expr →
    Except Err (Option Ty × List Function)
  | 0, _, _ => .error .outOfFuel
  | fuel + 1, funs, node =>
    match node with
    | some (.binop left op right) => do
        let (left_type, funs1) ← get_type ctx fuel funs (some left)
        let (right_type, funs2) ← get_type ctx fuel funs1 (some right)
        match op with
        | .Add => do
            let ln ← tyIsNumber left_type
            if ln then do
              let rn ← tyIsNumber right_type
              if rn then pure (some .NUMBER, funs2) else pure (some .STRING, funs2)
            else
              pure (some .STRING, funs2)
        | _ => do
            let ln ← tyIsNumber left_type
            if ln then do
              let rn ← tyIsNumber right_type
              if rn then pure (some .NUMBER, funs2)
              else .error (.compileError ("Can not '" ++ op.clsName ++ "' operator with string."))
            else
              .error (.compileError ("Can not '" ++ op.clsName ++ "' operator with string."))
    | some (.unaryop _ _) =>
        .error (.nameError "operand")
    | some (.num _) => pure (some .NUMBER, funs)
    | some (.str _) => pure (some .STRING, funs)
    | some .list => pure (some .LIST, funs)
    | some (.call funcName args) => do
        let (args_type, funs1) ← get_type_list ctx fuel funs args
        let (rt, funs2) ← get_function_return_type ctx fuel funs1 funcName args_type
        pure (some rt, funs2)
    | some (.name id) =>
        match lookupVariable ctx.var_table id with
        | some v => pure (v.var_type, funs)
        | none => .error (.unresolvedName id)
    | some .other => pure (none, funs)
    | none => pure (none, funs)

/-- The argument list comprehension of the `ast.Call` branch: infer each
argument left to right, threading the function table. -/
def get_type_list (ctx : Ctx) : Nat → List Function → List Expr →
    Except Err (List (Option Ty) × List Function)
  | 0, _, _ => .error .outOfFuel
  | _ + 1, funs, [] => pure ([], funs)
  | fuel + 1, funs, e :: rest => do
      let (t, funs1) ← get_type ctx fuel funs (some e)
      let (ts, funs2) ← get_type_list ctx fuel funs1 rest
      pure (t :: ts, funs2)

/-- `CodeAnalyzer.get_function_return_type` (lines 92-124): built-in
oracle first, then the cached entry (exact signature match or
`ParamTypeMismatchError`), then a lazy analysis of a matching top-level
function definition whose result is cached, else the STRING fallback. -/
def get_function_return_type (ctx : Ctx) : Nat → List Function → String → List (Option Ty) →
    Except Err (Ty × List Function)
  | 0, _, _, _ => .error .outOfFuel
  | fuel + 1, funs, function_name, args_type =>
    let function := lookupFunction funs function_name
    if ctx.is_system_function function_name then
      pure (ctx.system_return_type function_name, funs)
    else
      match function with
      | some f =>
          if f.is_args_type_match args_type then
            pure (f.return_type, funs)
          else
            .error (.paramTypeMismatchError "Function '%s' parameter type is not match" function_name)
      | none =>
          match scanFunctionDef ctx.module_body function_name with
          | some body => do
              let (return_type, funs1) ← analysis_function ctx fuel funs body args_type
              pure (return_type, appendFunction funs1 ⟨function_name, args_type, return_type⟩)
          | none => pure (.STRING, funs)

/-- `CodeAnalyzer.analysis_function` (lines 48-75): fresh empty local
Variable Table, `return_type` initialised to VOID, then the body loop.
The `args_type` parameter is accepted and, as in the source, never
used. -/
def analysis_function (ctx : Ctx) : Nat → List Function → List Stmt → List (Option Ty) →
    Except Err (Ty × List Function)
  | 0, _, _, _ => .error .outOfFuel
  | fuel + 1, funs, body, _args_type => do
      let (return_type, _variables, funs1) ← funcBody ctx fuel funs [] .VOID body
      pure (return_type, funs1)

/-- The `for node in function_node.body` loop of `analysis_function`:
assignments update the local table, each `return` overwrites
`return_type` with `get_type(node.value)` (VOID when that is `None`),
every other statement kind is skipped. -/
def funcBody (ctx : Ctx) : Nat → List Function → List Variable → Ty → List Stmt →
    Except Err (Ty × List Variable × List Function)
  | 0, _, _, _, _ => .error .outOfFuel
  | _ + 1, funs, vars, return_type, [] => pure (return_type, vars, funs)
  | fuel + 1, funs, vars, return_type, node :: rest =>
    match node with
    | .assign targets value => do
        let (vars1, funs1) ← analysis_assign_node ctx fuel funs vars targets value
        funcBody ctx fuel funs1 vars1 return_type rest
    | .ret value => do
        let (t, funs1) ← get_type ctx fuel funs value
        funcBody ctx fuel funs1 vars (t.getD .VOID) rest
    | _ => funcBody ctx fuel funs vars return_type rest

/-- `CodeAnalyzer.analysis_assign_node` (lines 77-90): reject multi-target
assignment, otherwise append `Variable(target.id, get_type(value))` to the
passed table. -/
def analysis_assign_node (ctx : Ctx) : Nat → List Function → List Variable → List String → Expr →
    Except Err (List Variable × List Function)
  | 0, _, _, _, _ => .error .outOfFuel
  | fuel + 1, funs, vars, targets, value =>
    if targets.length > 1 then
      .error (.syntaxNotSupportError "Tuple assignment is not support yet.")
    else
      match targets with
      | [] => .error .indexError
      | target :: _ => do
          let (t, funs1) ← get_type ctx fuel funs (some value)
          pure (appendVariable vars ⟨target, t⟩, funs1)

end

/-- The `for node in self.module_node.body` loop of
`CodeAnalyzer.analysis` (lines 30-46): assignments populate the module
Variable Table, a bare expression statement wrapping a call is inferred
for its side effects only, an import is delegated to the external
`analyze_cmd` (no analyzer state is touched), anything else is skipped.
Each step reads the module Variable Table as it stands, so the context is
rebuilt per statement. -/
def analysisBody (module_body : List Stmt) (isys : String → Bool) (srt : String → Ty) :
    Nat → List Variable → List Function → List Stmt →
    Except Err (List Variable × List Function)
  | 0, _, _, _ => .error .outOfFuel
  | _ + 1, vars, funs, [] => pure (vars, funs)
  | fuel + 1, vars, funs, node :: rest =>
    match node with
    | .assign targets value => do
        let (vars1, funs1) ←
          analysis_assign_node ⟨module_body, vars, isys, srt⟩ fuel funs vars targets value
        analysisBody module_body isys srt fuel vars1 funs1 rest
    | .exprStmt value =>
        match value with
        | .call f args => do
            let (_, funs1) ←
              get_type ⟨module_body, vars, isys, srt⟩ fuel funs (some (.call f args))
            analysisBody module_body isys srt fuel vars funs1 rest
        | _ => analysisBody module_body isys srt fuel vars funs rest
    | .importFrom => analysisBody module_body isys srt fuel vars funs rest
    | _ => analysisBody module_body isys srt fuel vars funs rest

/-- `CodeAnalyzer.analysis` on a parsed module: one top-to-bottom pass
starting from empty tables. -/
def analysis (module_body : List Stmt) (isys : String → Bool) (srt : String → Ty)
    (fuel : Nat) : Except Err (List Variable × List Function) :=
  analysisBody module_body isys srt fuel [] [] module_body

/-- An analyzer context over an empty module: no top-level statements, no
module variables, no built-ins. -/
def ctx0 : Ctx := ⟨[], [], fun _ => false, fun _ => Ty.STRING⟩

/-- An analyzer context whose module is `def f(): return 1` and nothing
else. -/
def ctxF : Ctx :=
  ⟨[Stmt.functionDef "f" [Stmt.ret (some (Expr.num 1))]], [], fun _ => false, fun _ => Ty.STRING⟩

/-- An analyzer context whose module Variable Table binds `y` to STRING. -/
def ctxY : Ctx := ⟨[], [⟨"y", some Ty.STRING⟩], fun _ => false, fun _ => Ty.STRING⟩

/-- The expression node kinds `get_type` handles with a dedicated branch
that can produce a type (everything except name references, which forward
whatever the table entry recorded, and the unhandled fall-through
kinds). -/
def handledValueKind : Expr → Bool
  | .binop _ _ _ => true
  | .unaryop _ _ => true
  | .num _ => true
  | .str _ => true
  | .list => true
  | .call _ _ => true
  | .name _ => false
  | .other => false

/-- No statement of the list is a `return` statement. -/
def noReturn : List Stmt → Bool
  | [] => true
  | .ret _ :: _ => false
  | _ :: rest => noReturn rest

/-- Unfolding equation for a successful bind in `Except Err`. -/
theorem ebind_ok {A B : Type} (a : A) (f : A → Except Err B) :
    Bind.bind (Except.ok a) f = f a := rfl

/-- Unfolding equation for a failing bind in `Except Err`. -/
theorem ebind_err {A B : Type} (e : Err) (f : A → Except Err B) :
    Bind.bind (Except.error e : Except Err A) f = Except.error e := rfl

/-- Unfolding equation for `pure` in `Except Err`. -/
theorem epure {A : Type} (a : A) : (pure a : Except Err A) = Except.ok a := rfl


/-- Evaluated form of `get_type` on an `ast.Add` binary operation whose two
operand inferences succeed with actual types: NUMBER when both operand
types are NUMBER, STRING otherwise, never an error. -/
theorem get_type_add_eq (ctx : Ctx) (fuel : Nat) (funs funs1 funs2 : List Function)
    (a b : Expr) (ta tb : Ty)
    (ha : get_type ctx fuel funs (some a) = .ok (some ta, funs1))
    (hb : get_type ctx fuel funs1 (some b) = .ok (some tb, funs2)) :
    get_type ctx (fuel + 1) funs (some (Expr.binop a Op.Add b)) =
      .ok (some (if ta.is_number && tb.is_number then Ty.NUMBER else Ty.STRING), funs2) := by
  simp only [get_type, ebind_ok, ha]
  simp only [hb, ebind_ok]
  cases ta <;> cases tb <;> simp [tyIsNumber, Ty.is_number, ebind_ok, epure]

/-- C1: for every binary add expression whose operands infer to types
`ta`, `tb`, `get_type` returns NUMBER if and only if both operand types
are NUMBER, and in every other case returns STRING without raising an
error. -/
theorem c1_add_number_iff (ctx : Ctx) (fuel : Nat) (funs funs1 funs2 : List Function)
    (a b : Expr) (ta tb : Ty)
    (ha : get_type ctx fuel funs (some a) = .ok (some ta, funs1))
    (hb : get_type ctx fuel funs1 (some b) = .ok (some tb, funs2)) :
    (get_type ctx (fuel + 1) funs (some (Expr.binop a Op.Add b)) = .ok (some Ty.NUMBER, funs2)
      ↔ ta = Ty.NUMBER ∧ tb = Ty.NUMBER) ∧
    (¬(ta = Ty.NUMBER ∧ tb = Ty.NUMBER) →
      get_type ctx (fuel + 1) funs (some (Expr.binop a Op.Add b)) = .ok (some Ty.STRING, funs2)) := by
  rw [get_type_add_eq ctx fuel funs funs1 funs2 a b ta tb ha hb]
  cases ta <;> cases tb <;> simp [Ty.is_number]

/-- Witness for C1 at `1 + "x"`: NUMBER plus STRING concatenates to
STRING and does not raise. -/
theorem c1_add_number_iff_witness :
    (get_type ctx0 1 [] (some (Expr.num 1)) = .ok (some Ty.NUMBER, [])) ∧
    (get_type ctx0 1 [] (some (Expr.str "x")) = .ok (some Ty.STRING, [])) ∧
    (¬(Ty.NUMBER = Ty.NUMBER ∧ Ty.STRING = Ty.NUMBER) →
      get_type ctx0 2 [] (some (Expr.binop (Expr.num 1) Op.Add (Expr.str "x"))) =
        .ok (some Ty.STRING, [])) :=
  ⟨rfl, rfl, (c1_add_number_iff ctx0 1 [] [] [] (Expr.num 1) (Expr.str "x")
    Ty.NUMBER Ty.STRING rfl rfl).2⟩

/-- Evaluated form of `get_type` on a non-add binary operation whose two
operand inferences succeed with actual types: NUMBER when both are
NUMBER, otherwise the `CompileError` that names the operator class. -/
theorem get_type_nonadd_eq (ctx : Ctx) (fuel : Nat) (funs funs1 funs2 : List Function)
    (a b : Expr) (op : Op) (ta tb : Ty) (hop : op ≠ Op.Add)
    (ha : get_type ctx fuel funs (some a) = .ok (some ta, funs1))
    (hb : get_type ctx fuel funs1 (some b) = .ok (some tb, funs2)) :
    get_type ctx (fuel + 1) funs (some (Expr.binop a op b)) =
      (if ta.is_number && tb.is_number then .ok (some Ty.NUMBER, funs2)
       else .error (.compileError ("Can not \x27" ++ op.clsName ++ "\x27 operator with string."))) := by
  simp only [get_type, ebind_ok, ha]
  simp only [hb, ebind_ok]
  cases op <;> first
    | exact absurd rfl hop
    | cases ta <;> cases tb <;> simp [tyIsNumber, Ty.is_number, ebind_ok, epure]

/-- C2: for every binary expression whose operator is not add, `get_type`
returns NUMBER when both operand types are NUMBER, and otherwise raises a
`CompileError` whose message names the specific operator; the STRING
fallback of the add case never applies here. -/
theorem c2_nonadd_number_or_compile_error (ctx : Ctx) (fuel : Nat)
    (funs funs1 funs2 : List Function)
    (a b : Expr) (op : Op) (ta tb : Ty) (hop : op ≠ Op.Add)
    (ha : get_type ctx fuel funs (some a) = .ok (some ta, funs1))
    (hb : get_type ctx fuel funs1 (some b) = .ok (some tb, funs2)) :
    (ta = Ty.NUMBER ∧ tb = Ty.NUMBER →
      get_type ctx (fuel + 1) funs (some (Expr.binop a op b)) = .ok (some Ty.NUMBER, funs2)) ∧
    (¬(ta = Ty.NUMBER ∧ tb = Ty.NUMBER) →
      get_type ctx (fuel + 1) funs (some (Expr.binop a op b)) =
        .error (.compileError ("Can not \x27" ++ op.clsName ++ "\x27 operator with string."))) := by
  rw [get_type_nonadd_eq ctx fuel funs funs1 funs2 a b op ta tb hop ha hb]
  cases ta <;> cases tb <;> simp [Ty.is_number]

/-- Witness for C2 at `1 - "x"`: raises the `CompileError` naming
`Sub`. -/
theorem c2_nonadd_witness :
    (Op.Sub ≠ Op.Add) ∧
    (get_type ctx0 1 [] (some (Expr.num 1)) = .ok (some Ty.NUMBER, [])) ∧
    (get_type ctx0 1 [] (some (Expr.str "x")) = .ok (some Ty.STRING, [])) ∧
    (¬(Ty.NUMBER = Ty.NUMBER ∧ Ty.STRING = Ty.NUMBER) →
      get_type ctx0 2 [] (some (Expr.binop (Expr.num 1) Op.Sub (Expr.str "x"))) =
        .error (.compileError "Can not \x27Sub\x27 operator with string.")) :=
  ⟨by decide, rfl, rfl, (c2_nonadd_number_or_compile_error ctx0 1 [] [] []
    (Expr.num 1) (Expr.str "x") Op.Sub Ty.NUMBER Ty.STRING (by decide) rfl rfl).2⟩

/-- C8: every unary operation makes `get_type` raise Python `NameError`
for the unbound identifier `operand` (the source tests
`isinstance(operand, ast.Num)` without ever binding `operand`), for every
operand — numeric or not — instead of the documented NUMBER /
`SyntaxNotSupportError` behaviour. -/
theorem c8_unary_nameerror (ctx : Ctx) (fuel : Nat) (funs : List Function)
    (u : UOp) (e : Expr) :
    get_type ctx (fuel + 1) funs (some (Expr.unaryop u e)) = .error (Err.nameError "operand") := rfl

/-- C9: a name reference whose name has no entry in the Variable Table the
engine consults fails with the unresolved-name error, never a silent
default type. -/
theorem c9_unresolved_name (ctx : Ctx) (fuel : Nat) (funs : List Function) (id : String)
    (h : lookupVariable ctx.var_table id = none) :
    get_type ctx (fuel + 1) funs (some (Expr.name id)) = .error (Err.unresolvedName id) := by
  simp only [get_type, h]

/-- Witness for C9 at the undefined name `y`. -/
theorem c9_unresolved_name_witness :
    (lookupVariable ctx0.var_table "y" = none) ∧
    (get_type ctx0 1 [] (some (Expr.name "y")) = .error (Err.unresolvedName "y")) :=
  ⟨rfl, c9_unresolved_name ctx0 0 [] "y" rfl⟩

/-- C7: a call to a name that is not a built-in, has no cached Function
Table entry and matches no top-level function definition resolves to
STRING without an error. -/
theorem c7_unknown_callee_fallback (ctx : Ctx) (fuel : Nat) (funs : List Function)
    (fname : String) (args : List (Option Ty))
    (hsys : ctx.is_system_function fname = false)
    (hcache : lookupFunction funs fname = none)
    (hscan : scanFunctionDef ctx.module_body fname = none) :
    get_function_return_type ctx (fuel + 1) funs fname args = .ok (Ty.STRING, funs) := by
  simp only [get_function_return_type, hsys, hcache, hscan, Bool.false_eq_true, if_false, epure]

/-- Witness for C7 at the undefined callee `g(1)`. -/
theorem c7_unknown_callee_fallback_witness :
    (ctx0.is_system_function "g" = false) ∧
    (lookupFunction [] "g" = none) ∧
    (scanFunctionDef ctx0.module_body "g" = none) ∧
    (get_function_return_type ctx0 1 [] "g" [some Ty.NUMBER] = .ok (Ty.STRING, [])) :=
  ⟨rfl, rfl, rfl, c7_unknown_callee_fallback ctx0 0 [] "g" [some Ty.NUMBER] rfl rfl rfl⟩

/-- C6: for a callee with a cached Function Table entry that is not a
built-in, resolution returns the cached return type on an exact
argument-type match and raises `ParamTypeMismatchError` carrying the
function name on any mismatch. -/
theorem c6_cached_match_or_mismatch (ctx : Ctx) (fuel : Nat) (funs : List Function)
    (fname : String) (args : List (Option Ty)) (f : Function)
    (hsys : ctx.is_system_function fname = false)
    (hcache : lookupFunction funs fname = some f) :
    (f.args_type = args →
      get_function_return_type ctx (fuel + 1) funs fname args = .ok (f.return_type, funs)) ∧
    (f.args_type ≠ args →
      get_function_return_type ctx (fuel + 1) funs fname args =
        .error (.paramTypeMismatchError "Function \x27%s\x27 parameter type is not match" fname)) := by
  constructor <;> intro h <;>
    simp [get_function_return_type, hsys, hcache, Function.is_args_type_match, h, epure]

/-- Witness for C6: `f` cached with `[NUMBER]`, called with `[STRING]`,
raises the mismatch error naming `f`. -/
theorem c6_cached_witness :
    (ctx0.is_system_function "f" = false) ∧
    (lookupFunction [⟨"f", [some Ty.NUMBER], Ty.NUMBER⟩] "f" =
      some ⟨"f", [some Ty.NUMBER], Ty.NUMBER⟩) ∧
    (([some Ty.NUMBER] : List (Option Ty)) ≠ [some Ty.STRING] →
      get_function_return_type ctx0 1 [⟨"f", [some Ty.NUMBER], Ty.NUMBER⟩] "f" [some Ty.STRING] =
        .error (.paramTypeMismatchError "Function \x27%s\x27 parameter type is not match" "f")) :=
  ⟨rfl, rfl, (c6_cached_match_or_mismatch ctx0 0 [⟨"f", [some Ty.NUMBER], Ty.NUMBER⟩]
    "f" [some Ty.STRING] ⟨"f", [some Ty.NUMBER], Ty.NUMBER⟩ rfl rfl).2⟩

/-- C4: once a resolution of `(fname, args)` has returned `rt` and that
signature stands cached as the Function Table's first match for `fname`,
resolving the same signature again returns the identical cached return
type and leaves the function table unchanged — no body is re-walked, at
any remaining fuel. -/
theorem c4_cached_resolution_idempotent (ctx : Ctx) (k k2 : Nat) (funs funs1 : List Function)
    (fname : String) (args : List (Option Ty)) (rt : Ty)
    (h1 : get_function_return_type ctx (k + 1) funs fname args = .ok (rt, funs1))
    (h2 : lookupFunction funs1 fname = some ⟨fname, args, rt⟩) :
    get_function_return_type ctx (k2 + 1) funs1 fname args = .ok (rt, funs1) := by
  by_cases hsys : ctx.is_system_function fname
  · simp only [get_function_return_type, hsys, if_true, epure, Except.ok.injEq,
      Prod.mk.injEq] at h1 ⊢
    exact ⟨h1.1, trivial⟩
  · simp only [get_function_return_type, Bool.not_eq_true] at *
    simp [hsys, h2, Function.is_args_type_match, epure]

/-- Witness for C4: first resolution of `f()` walks the body and caches
`("f", [], NUMBER)`; the second returns the cached NUMBER with the table
unchanged. -/
theorem c4_cached_resolution_idempotent_witness :
    (get_function_return_type ctxF 5 [] "f" [] = .ok (Ty.NUMBER, [⟨"f", [], Ty.NUMBER⟩])) ∧
    (lookupFunction [⟨"f", [], Ty.NUMBER⟩] "f" = some ⟨"f", [], Ty.NUMBER⟩) ∧
    (get_function_return_type ctxF 1 [⟨"f", [], Ty.NUMBER⟩] "f" [] =
      .ok (Ty.NUMBER, [⟨"f", [], Ty.NUMBER⟩])) :=
  ⟨rfl, rfl, c4_cached_resolution_idempotent ctxF 4 0 [] [⟨"f", [], Ty.NUMBER⟩]
    "f" [] Ty.NUMBER rfl rfl⟩

/-- C5: nested analysis of the body `y = 1; return y` under a module
Variable Table binding `y` to STRING yields STRING — `get_type` resolves
the body-local name `y` against the module table (`self.variables`), not
against the fresh local table that the assignment populated with
NUMBER. -/
theorem c5_body_name_resolves_against_module_table :
    (analysis_function ctxY 9 []
      [Stmt.assign ["y"] (Expr.num 1), Stmt.ret (some (Expr.name "y"))] []
      = .ok (Ty.STRING, [])) ∧
    Ty.STRING ≠ Ty.NUMBER :=
  ⟨rfl, by decide⟩


/-- C10 counterexample: visiting an expression node of an unhandled kind
(such as `ast.Compare`) yields neither one of the four types nor a raised
error — `get_type` falls through and returns Python `None`. -/
theorem c10_counterexample_other_falls_through :
    get_type ctx0 1 [] (some Expr.other) = .ok (none, []) := rfl

/-- C10 amended: every expression node of a handled kind yields an actual
type or a raised error — the absent result `none` is impossible for
them; only name references (forwarding an absent recorded type) and
unhandled node kinds can produce no type. -/
theorem c10_handled_never_absent (ctx : Ctx) (fuel : Nat) (funs funs' : List Function)
    (e : Expr) (h : handledValueKind e = true) :
    get_type ctx fuel funs (some e) ≠ .ok (none, funs') := by
  intro hEq
  cases fuel with
  | zero => exact absurd hEq (by simp [get_type])
  | succ n =>
    cases e with
    | binop a op b =>
      simp only [get_type] at hEq
      cases hL : get_type ctx n funs (some a) with
      | error er => rw [hL, ebind_err] at hEq; exact Except.noConfusion hEq
      | ok p =>
        obtain ⟨lt, f1⟩ := p
        rw [hL, ebind_ok] at hEq
        cases hR : get_type ctx n f1 (some b) with
        | error er => rw [hR, ebind_err] at hEq; exact Except.noConfusion hEq
        | ok q =>
          obtain ⟨rt2, f2⟩ := q
          rw [hR, ebind_ok] at hEq
          rcases lt with _ | t
          · cases op <;> simp [tyIsNumber, ebind_err, ebind_ok, epure] at hEq
          · rcases rt2 with _ | t2
            · cases op <;> cases t <;>
                simp [tyIsNumber, Ty.is_number, ebind_err, ebind_ok, epure] at hEq
            · cases op <;> cases t <;> cases t2 <;>
                simp [tyIsNumber, Ty.is_number, ebind_err, ebind_ok, epure] at hEq
    | unaryop u e' => simp [get_type] at hEq
    | num m => simp [get_type, epure] at hEq
    | str s => simp [get_type, epure] at hEq
    | list => simp [get_type, epure] at hEq
    | call f as =>
      simp only [get_type] at hEq
      cases hL : get_type_list ctx n funs as with
      | error er => rw [hL, ebind_err] at hEq; exact Except.noConfusion hEq
      | ok p =>
        obtain ⟨ts, f1⟩ := p
        rw [hL, ebind_ok] at hEq
        cases hR : get_function_return_type ctx n f1 f ts with
        | error er => rw [hR, ebind_err] at hEq; exact Except.noConfusion hEq
        | ok q =>
          obtain ⟨rt2, f2⟩ := q
          rw [hR, ebind_ok] at hEq
          simp [epure] at hEq
    | name i => simp [handledValueKind] at h
    | other => simp [handledValueKind] at h

/-- Witness for the amended C10 at a numeric literal. -/
theorem c10_handled_never_absent_witness :
    (handledValueKind (Expr.num 1) = true) ∧
    (get_type ctx0 1 [] (some (Expr.num 1)) ≠ .ok (none, [])) :=
  ⟨rfl, c10_handled_never_absent ctx0 1 [] [] (Expr.num 1) rfl⟩


/-- C3 counterexample: for the body `return 1; return "a"` the cached
return type is STRING — the type of the second (last) return — while the
first return statement's expression infers to NUMBER, so the first return
does not determine the signature's return type. -/
theorem c3_counterexample_first_return_not_used :
    (analysis_function ctx0 9 []
      [Stmt.ret (some (Expr.num 1)), Stmt.ret (some (Expr.str "a"))] []
      = .ok (Ty.STRING, [])) ∧
    (get_type ctx0 9 [] (some (Expr.num 1)) = .ok (some Ty.NUMBER, [])) ∧
    Ty.STRING ≠ Ty.NUMBER :=
  ⟨rfl, rfl, by decide⟩

/-- A successful body walk containing no `return` statement leaves the
pending return type unchanged. -/
theorem funcBody_noReturn (ctx : Ctx) :
    ∀ (post : List Stmt) (fuel : Nat) (funs : List Function) (vars : List Variable)
      (rt rt' : Ty) (vars' : List Variable) (funs' : List Function),
    noReturn post = true →
    funcBody ctx fuel funs vars rt post = .ok (rt', vars', funs') → rt' = rt := by
  intro post
  induction post with
  | nil =>
    intro fuel funs vars rt rt' vars' funs' hnr h
    cases fuel with
    | zero => simp [funcBody] at h
    | succ n =>
      simp only [funcBody, epure, Except.ok.injEq, Prod.mk.injEq] at h
      exact h.1.symm
  | cons s rest ih =>
    intro fuel funs vars rt rt' vars' funs' hnr h
    cases fuel with
    | zero => simp [funcBody] at h
    | succ n =>
      cases s with
      | assign tg v =>
        simp only [funcBody] at h
        cases hA : analysis_assign_node ctx n funs vars tg v with
        | error er => rw [hA, ebind_err] at h; exact Except.noConfusion h
        | ok p =>
          obtain ⟨v1, f1⟩ := p
          rw [hA, ebind_ok] at h
          exact ih n f1 v1 rt rt' vars' funs' (by simpa [noReturn] using hnr) h
      | ret v => simp [noReturn] at hnr
      | exprStmt v =>
        simp only [funcBody] at h
        exact ih n funs vars rt rt' vars' funs' (by simpa [noReturn] using hnr) h
      | functionDef nm bd =>
        simp only [funcBody] at h
        exact ih n funs vars rt rt' vars' funs' (by simpa [noReturn] using hnr) h
      | importFrom =>
        simp only [funcBody] at h
        exact ih n funs vars rt rt' vars' funs' (by simpa [noReturn] using hnr) h
      | other =>
        simp only [funcBody] at h
        exact ih n funs vars rt rt' vars' funs' (by simpa [noReturn] using hnr) h

/-- Decomposition of a body walk at a list split: after a successful walk
of the prefix, the walk of the whole list continues from the prefix's
result with one fuel step consumed per prefix statement. -/
theorem funcBody_append (ctx : Ctx) :
    ∀ (pre : List Stmt) (fuel : Nat) (funs : List Function) (vars : List Variable) (rt : Ty)
      (r1 : Ty) (v1 : List Variable) (f1 : List Function) (rest : List Stmt),
    funcBody ctx fuel funs vars rt pre = .ok (r1, v1, f1) →
    funcBody ctx fuel funs vars rt (pre ++ rest) =
      funcBody ctx (fuel - pre.length) f1 v1 r1 rest := by
  intro pre
  induction pre with
  | nil =>
    intro fuel funs vars rt r1 v1 f1 rest h
    cases fuel with
    | zero => simp [funcBody] at h
    | succ n =>
      simp only [funcBody, epure, Except.ok.injEq, Prod.mk.injEq] at h
      obtain ⟨h1, h2, h3⟩ := h
      subst h1; subst h2; subst h3
      simp
  | cons s pre' ih =>
    intro fuel funs vars rt r1 v1 f1 rest h
    cases fuel with
    | zero => simp [funcBody] at h
    | succ n =>
      cases s with
      | assign tg v =>
        simp only [funcBody] at h
        simp only [List.cons_append, funcBody]
        cases hA : analysis_assign_node ctx n funs vars tg v with
        | error er => rw [hA, ebind_err] at h; exact Except.noConfusion h
        | ok p =>
          obtain ⟨vv, ff⟩ := p
          rw [hA] at h
          simp only [ebind_ok] at h ⊢
          simpa [Nat.succ_sub_succ] using ih n ff vv rt r1 v1 f1 rest h
      | ret v =>
        simp only [funcBody] at h
        simp only [List.cons_append, funcBody]
        cases hG : get_type ctx n funs v with
        | error er => rw [hG, ebind_err] at h; exact Except.noConfusion h
        | ok p =>
          obtain ⟨t, ff⟩ := p
          rw [hG] at h
          simp only [ebind_ok] at h ⊢
          simpa [Nat.succ_sub_succ] using ih n ff vars (t.getD .VOID) r1 v1 f1 rest h
      | exprStmt v =>
        simp only [funcBody] at h
        simp only [List.cons_append, funcBody]
        simpa [Nat.succ_sub_succ] using ih n funs vars rt r1 v1 f1 rest h
      | functionDef nm bd =>
        simp only [funcBody] at h
        simp only [List.cons_append, funcBody]
        simpa [Nat.succ_sub_succ] using ih n funs vars rt r1 v1 f1 rest h
      | importFrom =>
        simp only [funcBody] at h
        simp only [List.cons_append, funcBody]
        simpa [Nat.succ_sub_succ] using ih n funs vars rt r1 v1 f1 rest h
      | other =>
        simp only [funcBody] at h
        simp only [List.cons_append, funcBody]
        simpa [Nat.succ_sub_succ] using ih n funs vars rt r1 v1 f1 rest h

/-- C3 amended: the cached signature's return type is decided by the last
return statement in body order — a body with no return statement keeps
VOID, and each return overwrites the pending type with its expression's
inferred type (VOID when the return carries no expression or the
expression infers no type), so a final return after a no-return suffix is
the one that stands. -/
theorem c3_amended_last_return_decides :
    (∀ (ctx : Ctx) (fuel : Nat) (funs : List Function) (body : List Stmt)
       (args : List (Option Ty)) (rt : Ty) (funs' : List Function),
      noReturn body = true →
      analysis_function ctx fuel funs body args = .ok (rt, funs') → rt = Ty.VOID) ∧
    (∀ (ctx : Ctx) (fuel : Nat) (funs : List Function) (vars : List Variable) (rt0 : Ty)
       (pre : List Stmt) (rP : Ty) (vP : List Variable) (fP : List Function)
       (e : Option Expr) (t : Option Ty) (fE : List Function) (post : List Stmt)
       (rt : Ty) (vars' : List Variable) (funs' : List Function),
      funcBody ctx fuel funs vars rt0 pre = .ok (rP, vP, fP) →
      get_type ctx (fuel - pre.length - 1) fP e = .ok (t, fE) →
      noReturn post = true →
      funcBody ctx fuel funs vars rt0 (pre ++ Stmt.ret e :: post) = .ok (rt, vars', funs') →
      rt = t.getD Ty.VOID) := by
  constructor
  · intro ctx fuel funs body args rt funs' hnr h
    cases fuel with
    | zero => simp [analysis_function] at h
    | succ n =>
      simp only [analysis_function] at h
      cases hB : funcBody ctx n funs [] .VOID body with
      | error er => rw [hB, ebind_err] at h; exact Except.noConfusion h
      | ok p =>
        obtain ⟨rtb, vb, fb⟩ := p
        rw [hB, ebind_ok] at h
        simp only [epure, Except.ok.injEq, Prod.mk.injEq] at h
        have hv := funcBody_noReturn ctx body n funs [] .VOID rtb vb fb hnr hB
        rw [← h.1, hv]
  · intro ctx fuel funs vars rt0 pre rP vP fP e t fE post rt vars' funs' hpre hget hpost hwhole
    rw [funcBody_append ctx pre fuel funs vars rt0 rP vP fP (Stmt.ret e :: post) hpre] at hwhole
    cases hf : fuel - pre.length with
    | zero => rw [hf] at hwhole; simp [funcBody] at hwhole
    | succ m =>
      rw [hf] at hwhole
      simp only [funcBody] at hwhole
      have hm : fuel - pre.length - 1 = m := by rw [hf]; omega
      rw [hm] at hget
      rw [hget, ebind_ok] at hwhole
      exact funcBody_noReturn ctx post m fE vP (t.getD .VOID) rt vars' funs' hpost hwhole

/-- Witness for the amended C3: a body with only an assignment keeps
VOID, and the body `return "a"` ends with STRING, the type of its last
(and only) return. -/
theorem c3_amended_last_return_decides_witness :
    ((noReturn [Stmt.assign ["x"] (Expr.num 1)] = true) ∧
     (analysis_function ctx0 5 [] [Stmt.assign ["x"] (Expr.num 1)] [] = .ok (Ty.VOID, [])) ∧
     Ty.VOID = Ty.VOID) ∧
    ((funcBody ctx0 3 [] [] Ty.VOID [] = .ok (Ty.VOID, [], [])) ∧
     (get_type ctx0 2 [] (some (Expr.str "a")) = .ok (some Ty.STRING, [])) ∧
     (noReturn ([] : List Stmt) = true) ∧
     (funcBody ctx0 3 [] [] Ty.VOID [Stmt.ret (some (Expr.str "a"))] = .ok (Ty.STRING, [], [])) ∧
     Ty.STRING = (some Ty.STRING).getD Ty.VOID) :=
  ⟨⟨rfl, rfl, c3_amended_last_return_decides.1 ctx0 5 []
      [Stmt.assign ["x"] (Expr.num 1)] [] Ty.VOID [] rfl rfl⟩,
   ⟨rfl, rfl, rfl, rfl,
    c3_amended_last_return_decides.2 ctx0 3 [] [] Ty.VOID [] Ty.VOID [] []
      (some (Expr.str "a")) (some Ty.STRING) [] [] Ty.STRING [] [] rfl rfl rfl rfl⟩⟩

end Sherlock
